import Mathlib

/-!
Verification of the telemetry simulation and alarm-evaluation engine of the
SCADA mock dashboard (src/src/App.tsx), as a shallow embedding in Lean 4.

Modelling conventions:
* JavaScript numbers are modelled as rationals (all values the engine
  produces are exact decimals).  A value that may be NaN (the result of
  Number(..) on a non-numeric string in the setpoint inputs) is modelled by
  the type JSNum, whose nan constructor stands for any non-finite value;
  JavaScript comparisons against NaN are false, which JSNum.gtN and
  JSNum.ltN reproduce.
* Math.random() draws are passed in explicitly, as rationals in [0,1) or as
  functions from the draw index for the seed generator.
* x.toFixed(2) followed by Number(..) is modelled by round2 (rounding to
  2 decimal places, ties away from zero for the positive values that occur
  here).
* React state is modelled by the State structure holding every useState
  cell of the App component; each handler or effect becomes a function
  from State (plus its random draws) to State.
-/

/-- One point of a series buffer: source type Point = { time, value }. -/
structure Point where
  time : String
  value : ℚ
deriving DecidableEq

/-- One alarm entry: source type Alarm = { type, value, time }.  Every alarm
the engine creates carries a numeric value, so value is modelled as ℚ. -/
structure Alarm where
  type : String
  value : ℚ
  time : String
deriving DecidableEq

/-- A JavaScript number that may be NaN: the setpoint inputs store
Number(e.target.value), which is NaN for non-numeric text. -/
inductive JSNum where
  | nan : JSNum
  | num : ℚ → JSNum
deriving DecidableEq

/-- JavaScript x > y for a finite x and a possibly-NaN y: false when y is NaN. -/
def JSNum.gtN (x : ℚ) (y : JSNum) : Bool :=
  match y with
  | .nan => false
  | .num q => decide (q < x)

/-- JavaScript x < y for a finite x and a possibly-NaN y: false when y is NaN. -/
def JSNum.ltN (x : ℚ) (y : JSNum) : Bool :=
  match y with
  | .nan => false
  | .num q => decide (x < q)

/-- Number(q.toFixed(2)): q rounded to 2 decimal places. -/
def round2 (q : ℚ) : ℚ := (Int.floor (q * 100 + 1/2) : ℚ) / 100

/-- The setpoints record of the App component.  The fields are JSNum because
the presentation layer writes Number(e.target.value) into them, which can
be NaN. -/
structure Setpoints where
  tempHigh : JSNum
  flowLow : JSNum
  pressHigh : JSNum
  levelLow : JSNum
  levelHigh : JSNum
deriving DecidableEq

/-- The initial setpoints (App.tsx lines 92-98). -/
def defaultSetpoints : Setpoints :=
  { tempHigh := JSNum.num 78
    flowLow := JSNum.num 130
    pressHigh := JSNum.num 2.4
    levelLow := JSNum.num 20
    levelHigh := JSNum.num 90 }

/-- pushSeries (App.tsx lines 35-44) at its only used capacity max = 40:
setter(s => [...s.slice(-39), point]).  slice(-39) keeps the last 39
elements (all of them when there are fewer), here written as a drop. -/
def pushSeries (s : List Point) (p : Point) : List Point :=
  s.drop (s.length - 39) ++ [p]

/-- A sequence of pushSeries calls, oldest push first. -/
def pushAll (s : List Point) (ps : List Point) : List Point :=
  ps.foldl pushSeries s

/-- The last n elements of a list (all of them when there are fewer). -/
def lastN (n : ℕ) (l : List Point) : List Point := l.drop (l.length - n)

/-- genSeed (App.tsx lines 45-53): n points, time labels "0".."n-1", each
value avg + (r - 0.5) * vari rounded to 2 decimals, r the i-th draw. -/
def genSeed (n : ℕ) (avg vari : ℚ) (draws : ℕ → ℚ) : List Point :=
  (List.range n).map (fun i => ⟨toString i, round2 (avg + (draws i - 0.5) * vari)⟩)

/-- All useState cells of the App component, in source order
(App.tsx lines 60-98). -/
structure State where
  tempSeries : List Point
  flowSeries : List Point
  pressSeries : List Point
  levelSeries : List Point
  tIn : ℚ
  tOut : ℚ
  flow : ℚ
  press : ℚ
  level : ℚ
  pumpOn : Bool
  fanOn : Bool
  ethConnected : Bool
  modbusConnected : Bool
  alarms : List Alarm
  setpoints : Setpoints
deriving DecidableEq

/-- The initial App state (App.tsx lines 60-98), given the four seed draw
streams. -/
def initState (dT dF dP dL : ℕ → ℚ) : State :=
  { tempSeries := genSeed 24 30 6 dT
    flowSeries := genSeed 24 145 30 dF
    pressSeries := genSeed 24 2.1 0.6 dP
    levelSeries := genSeed 24 60 18 dL
    tIn := 72
    tOut := 30
    flow := 150
    press := 2.1
    level := 60
    pumpOn := true
    fanOn := true
    ethConnected := true
    modbusConnected := false
    alarms := []
    setpoints := defaultSetpoints }

/-- The five Math.random() draws one tick consumes (App.tsx lines 117-122),
each in [0,1). -/
structure Draws where
  rTIn : ℚ
  rDrop : ℚ
  rFlow : ℚ
  rPress : ℚ
  rLevel : ℚ

/-- newTIn = 70 + Math.random() * 15 (App.tsx line 117). -/
def newTInOf (d : Draws) : ℚ := 70 + d.rTIn * 15

/-- newTOut = Math.max(15, newTIn - (8 + Math.random() * 20)) (line 118). -/
def newTOutOf (d : Draws) : ℚ := max 15 (newTInOf d - (8 + d.rDrop * 20))

/-- newTempAvg = Number(((newTIn + newTOut) / 2).toFixed(2)) (line 119). -/
def newTempAvgOf (d : Draws) : ℚ := round2 ((newTInOf d + newTOutOf d) / 2)

/-- newFlow = Number((120 + Math.random() * 60).toFixed(2)) (line 120). -/
def newFlowOf (d : Draws) : ℚ := round2 (120 + d.rFlow * 60)

/-- newPress = Number((1.6 + Math.random() * 1.2).toFixed(2)) (line 121). -/
def newPressOf (d : Draws) : ℚ := round2 (1.6 + d.rPress * 1.2)

/-- newLevel = Number((30 + Math.random() * 55).toFixed(2)) (line 122). -/
def newLevelOf (d : Draws) : ℚ := round2 (30 + d.rLevel * 55)

/-- The alarm-rule evaluation of one tick (App.tsx lines 138-168): the five
rules are checked in source order, each firing rule pushing one alarm that
carries the triggering value re-rounded to 2 decimals and the tick's
timestamp. -/
def evalAlarms (sp : Setpoints) (newTempAvg newFlow newPress newLevel : ℚ)
    (time : String) : List Alarm :=
  let a : List Alarm := []
  let a := if JSNum.gtN newTempAvg sp.tempHigh then
    a ++ [⟨"Alta Temperatura", round2 newTempAvg, time⟩] else a
  let a := if JSNum.ltN newFlow sp.flowLow then
    a ++ [⟨"Baixa Vazão", round2 newFlow, time⟩] else a
  let a := if JSNum.gtN newPress sp.pressHigh then
    a ++ [⟨"Pressão Elevada", round2 newPress, time⟩] else a
  let a := if JSNum.ltN newLevel sp.levelLow then
    a ++ [⟨"Nível Baixo", round2 newLevel, time⟩] else a
  let a := if JSNum.gtN newLevel sp.levelHigh then
    a ++ [⟨"Nível Alto", round2 newLevel, time⟩] else a
  a

/-- One tick of the simulation interval (App.tsx lines 112-178): draw the
new readings, push one point into each series, overwrite the instant
readings, evaluate the alarm rules against the current setpoints, and
prepend any fired alarms to the log truncated to 40 entries (the log is
truncated to 40 either way, mirroring the else branch slice(0, 40)). -/
def tick (s : State) (time : String) (d : Draws) : State :=
  let newAlarms := evalAlarms s.setpoints (newTempAvgOf d) (newFlowOf d)
    (newPressOf d) (newLevelOf d) time
  { s with
    tempSeries := pushSeries s.tempSeries ⟨time, newTempAvgOf d⟩
    flowSeries := pushSeries s.flowSeries ⟨time, newFlowOf d⟩
    pressSeries := pushSeries s.pressSeries ⟨time, newPressOf d⟩
    levelSeries := pushSeries s.levelSeries ⟨time, newLevelOf d⟩
    tIn := round2 (newTInOf d)
    tOut := round2 (newTOutOf d)
    flow := newFlowOf d
    press := newPressOf d
    level := newLevelOf d
    alarms := if newAlarms.length ≠ 0 then (newAlarms ++ s.alarms).take 40
      else s.alarms.take 40 }

/-- The efficiency KPI draw (App.tsx lines 103-106):
Math.max(0.5, Math.min(0.98, 0.85 - Math.random() * 0.12)). -/
def efficiencyOf (r : ℚ) : ℚ := max 0.5 (min 0.98 (0.85 - r * 0.12))

/-- The derived KPIs (App.tsx lines 101-109). -/
structure Kpis where
  dt : ℚ
  efficiency : ℚ
  cop : ℚ
deriving DecidableEq

/-- kpis (App.tsx lines 101-109) as a function of the instant temperatures
and the two fresh random draws. -/
def kpis (tIn tOut rEff rCop : ℚ) : Kpis :=
  { dt := round2 (tIn - tOut)
    efficiency := efficiencyOf rEff
    cop := round2 (2.5 + rCop * 1.6) }

/-- The onChange handler of the Temp. Máx input (App.tsx lines 646-651):
it stores Number(e.target.value) into tempHigh unconditionally. -/
def setTempHighInput (sp : Setpoints) (v : JSNum) : Setpoints :=
  { sp with tempHigh := v }

/-- The onChange handler of the Vazão mínima input (App.tsx lines 667-672). -/
def setFlowLowInput (sp : Setpoints) (v : JSNum) : Setpoints :=
  { sp with flowLow := v }

/-- The onChange handler of the Pressão máx input (App.tsx lines 689-694). -/
def setPressHighInput (sp : Setpoints) (v : JSNum) : Setpoints :=
  { sp with pressHigh := v }

/-- The onChange handler of the Nível mínimo input (App.tsx lines 710-715). -/
def setLevelLowInput (sp : Setpoints) (v : JSNum) : Setpoints :=
  { sp with levelLow := v }

/-- The onChange handler of the Nível máximo input (App.tsx lines 731-736). -/
def setLevelHighInput (sp : Setpoints) (v : JSNum) : Setpoints :=
  { sp with levelHigh := v }

/-- The Aplicar button handler (App.tsx lines 746-759): it clears the alarm
log (the setpoint values themselves were already stored by the onChange
handlers of the inputs). -/
def applySetpoints (s : State) : State := { s with alarms := [] }

/-- The Resetar Histórico button handler (App.tsx lines 807-814): re-seed
the four series buffers, touching nothing else. -/
def resetHistory (s : State) (dT dF dP dL : ℕ → ℚ) : State :=
  { s with
    tempSeries := genSeed 24 30 6 dT
    flowSeries := genSeed 24 145 30 dF
    pressSeries := genSeed 24 2.1 0.6 dP
    levelSeries := genSeed 24 60 18 dL }

/-- A concrete state used to instantiate hypotheses of the claim theorems. -/
def sampleState : State :=
  { tempSeries := []
    flowSeries := []
    pressSeries := []
    levelSeries := []
    tIn := 72
    tOut := 30
    flow := 150
    press := 2.1
    level := 60
    pumpOn := true
    fanOn := true
    ethConnected := true
    modbusConnected := false
    alarms := []
    setpoints := defaultSetpoints }

/-! ### Buffer lemmas -/

theorem pushSeries_eq_lastN (s : List Point) (p : Point) :
    pushSeries s p = lastN 40 (s ++ [p]) := by
  unfold pushSeries lastN
  rw [List.drop_append_eq_append_drop]
  have h1 : (s ++ [p]).length - 40 - s.length = 0 := by
    simp only [List.length_append, List.length_cons, List.length_nil]
    omega
  have h2 : (s ++ [p]).length - 40 = s.length - 39 := by
    simp only [List.length_append, List.length_cons, List.length_nil]
    omega
  rw [h1, h2, List.drop_zero]

theorem pushSeries_length_le (s : List Point) (p : Point) :
    (pushSeries s p).length ≤ 40 := by
  unfold pushSeries
  simp only [List.length_append, List.length_drop, List.length_cons, List.length_nil]
  omega

theorem lastN_of_length_le (l : List Point) (h : l.length ≤ 40) : lastN 40 l = l := by
  unfold lastN
  have : l.length - 40 = 0 := by omega
  rw [this, List.drop_zero]

theorem lastN_append_of_le (n : ℕ) (l xs : List Point) (h : n ≤ xs.length) :
    lastN n (l ++ xs) = lastN n xs := by
  unfold lastN
  rw [List.drop_append_eq_append_drop, List.drop_eq_nil_of_le]
  · simp only [List.nil_append, List.length_append]
    congr 1
    omega
  · simp only [List.length_append]
    omega

theorem lastN_lastN_append (l xs : List Point) :
    lastN 40 (lastN 40 l ++ xs) = lastN 40 (l ++ xs) := by
  unfold lastN
  rw [List.drop_append_eq_append_drop, List.drop_append_eq_append_drop, List.drop_drop]
  simp only [List.length_append, List.length_drop]
  congr 2 <;> omega

theorem pushAll_eq_lastN (ps : List Point) : ∀ s : List Point, s.length ≤ 40 →
    pushAll s ps = lastN 40 (s ++ ps) := by
  induction ps with
  | nil => intro s hs; simp [pushAll, lastN_of_length_le s hs]
  | cons p ps ih =>
    intro s hs
    have hstep : pushAll s (p :: ps) = pushAll (pushSeries s p) ps := rfl
    rw [hstep, ih (pushSeries s p) (pushSeries_length_le s p), pushSeries_eq_lastN,
      lastN_lastN_append]
    simp

/-- C2: starting from any contents of length at most 40, a series buffer
never exceeds 40 points under pushSeries, and once at least 40 points have
been pushed the buffer holds exactly the last 40 pushed points in
insertion order (FIFO eviction of the oldest). -/
theorem series_buffer_bound_and_fifo (init : List Point) (h : init.length ≤ 40) :
    (∀ ps : List Point, (pushAll init ps).length ≤ 40) ∧
    (∀ ps : List Point, 40 ≤ ps.length → pushAll init ps = lastN 40 ps) := by
  constructor
  · intro ps
    rw [pushAll_eq_lastN ps init h]
    unfold lastN
    simp only [List.length_drop]
    omega
  · intro ps hps
    rw [pushAll_eq_lastN ps init h, lastN_append_of_le 40 init ps hps]

/-- C2 witness: empty initial buffer, 41 pushes of a concrete point. -/
theorem series_buffer_bound_and_fifo_witness :
    (pushAll [] (List.replicate 41 (⟨"t", 1⟩ : Point))).length ≤ 40 :=
  (series_buffer_bound_and_fifo [] (by decide)).1 (List.replicate 41 ⟨"t", 1⟩)

/-! ### Alarm rule evaluation -/

/-- C1: the five alarm rules are evaluated independently in the fixed
source order, each firing rule emitting exactly one alarm carrying the
triggering reading rounded to 2 decimals and the tick timestamp; and at
the default setpoints a tick producing tempAvg 80, flow 140, press 2,
level 50 yields exactly one High-Temperature alarm of value 80. -/
theorem alarm_rules_fixed_order (sp : Setpoints) (tAvg fl pr lv : ℚ) (time : String) :
    evalAlarms sp tAvg fl pr lv time =
      (if JSNum.gtN tAvg sp.tempHigh then [⟨"Alta Temperatura", round2 tAvg, time⟩]
        else []) ++
      (if JSNum.ltN fl sp.flowLow then [⟨"Baixa Vazão", round2 fl, time⟩] else []) ++
      (if JSNum.gtN pr sp.pressHigh then [⟨"Pressão Elevada", round2 pr, time⟩]
        else []) ++
      (if JSNum.ltN lv sp.levelLow then [⟨"Nível Baixo", round2 lv, time⟩] else []) ++
      (if JSNum.gtN lv sp.levelHigh then [⟨"Nível Alto", round2 lv, time⟩] else []) ∧
    evalAlarms defaultSetpoints 80 140 2 50 time = [⟨"Alta Temperatura", 80, time⟩] := by
  constructor
  · unfold evalAlarms
    split_ifs <;> simp
  · unfold evalAlarms defaultSetpoints JSNum.gtN JSNum.ltN
    norm_num [round2]

/-- C3: on a tick, the fired alarms are prepended as a block ahead of the
whole previous log and the log is truncated to 40 entries, dropping the
oldest; when no rule fires the log is unchanged (the log length stays at
most 40, the reachable invariant assumed here). -/
theorem alarm_log_prepend_truncate (s : State) (time : String) (d : Draws)
    (h : s.alarms.length ≤ 40) :
    (tick s time d).alarms =
      (evalAlarms s.setpoints (newTempAvgOf d) (newFlowOf d) (newPressOf d)
        (newLevelOf d) time ++ s.alarms).take 40 ∧
    (evalAlarms s.setpoints (newTempAvgOf d) (newFlowOf d) (newPressOf d)
        (newLevelOf d) time = [] → (tick s time d).alarms = s.alarms) ∧
    (tick s time d).alarms.length ≤ 40 := by
  set na := evalAlarms s.setpoints (newTempAvgOf d) (newFlowOf d) (newPressOf d)
    (newLevelOf d) time with hna
  have htick : (tick s time d).alarms =
      if na.length ≠ 0 then (na ++ s.alarms).take 40 else s.alarms.take 40 := rfl
  by_cases hne : na = []
  · rw [htick, if_neg (by simp [hne])]
    refine ⟨?_, fun _ => List.take_of_length_le h, ?_⟩
    · rw [hne, List.nil_append]
    · rw [List.length_take]
      omega
  · rw [htick, if_pos (fun hc => hne (List.length_eq_zero.mp hc))]
    refine ⟨rfl, fun he => absurd he hne, ?_⟩
    rw [List.length_take]
    omega

/-- C3 witness: the concrete sample state, a concrete tick. -/
theorem alarm_log_prepend_truncate_witness :
    (tick sampleState "t" ⟨0, 0, 0, 0, 0⟩).alarms.length ≤ 40 :=
  (alarm_log_prepend_truncate sampleState "t" ⟨0, 0, 0, 0, 0⟩ (by decide)).2.2

/-- C6: the Aplicar handler leaves the alarm log empty, whatever was logged
before and whatever values the setpoint inputs hold. -/
theorem applySetpoints_clears_alarms (s : State) :
    (applySetpoints s).alarms = [] ∧ ((applySetpoints s).alarms).length = 0 :=
  ⟨rfl, rfl⟩

/-- C7: resetHistory replaces the four series buffers with fresh seed data
and leaves the instant readings, the alarm log, the setpoints and the
equipment and connectivity flags unchanged. -/
theorem resetHistory_frame (s : State) (dT dF dP dL : ℕ → ℚ) :
    (resetHistory s dT dF dP dL).tempSeries = genSeed 24 30 6 dT ∧
    (resetHistory s dT dF dP dL).flowSeries = genSeed 24 145 30 dF ∧
    (resetHistory s dT dF dP dL).pressSeries = genSeed 24 2.1 0.6 dP ∧
    (resetHistory s dT dF dP dL).levelSeries = genSeed 24 60 18 dL ∧
    (resetHistory s dT dF dP dL).tIn = s.tIn ∧
    (resetHistory s dT dF dP dL).tOut = s.tOut ∧
    (resetHistory s dT dF dP dL).flow = s.flow ∧
    (resetHistory s dT dF dP dL).press = s.press ∧
    (resetHistory s dT dF dP dL).level = s.level ∧
    (resetHistory s dT dF dP dL).alarms = s.alarms ∧
    (resetHistory s dT dF dP dL).setpoints = s.setpoints ∧
    (resetHistory s dT dF dP dL).pumpOn = s.pumpOn ∧
    (resetHistory s dT dF dP dL).fanOn = s.fanOn ∧
    (resetHistory s dT dF dP dL).ethConnected = s.ethConnected ∧
    (resetHistory s dT dF dP dL).modbusConnected = s.modbusConnected :=
  ⟨rfl, rfl, rfl, rfl, rfl, rfl, rfl, rfl, rfl, rfl, rfl, rfl, rfl, rfl, rfl⟩

/-! ### Simulated temperatures, non-interference, KPIs -/

/-- C8: with both draws in [0,1), newTIn lies in [70, 85), the subtracted
drop lies in [8, 28), the outlet is strictly cooler than the inlet, and the
outlet never goes below 15. -/
theorem outlet_cooler_bounds (d : Draws) (h1 : 0 ≤ d.rTIn) (h2 : d.rTIn < 1)
    (h3 : 0 ≤ d.rDrop) (h4 : d.rDrop < 1) :
    70 ≤ newTInOf d ∧ newTInOf d < 85 ∧ 8 ≤ 8 + d.rDrop * 20 ∧
    8 + d.rDrop * 20 < 28 ∧ newTOutOf d < newTInOf d ∧ 15 ≤ newTOutOf d := by
  unfold newTOutOf newTInOf
  refine ⟨by nlinarith, by nlinarith, by nlinarith, by nlinarith, ?_, le_max_left 15 _⟩
  exact max_lt (by nlinarith) (by nlinarith)

/-- C8 witness: both draws 0 give newTIn = 70 and newTOut = 62. -/
theorem outlet_cooler_bounds_witness :
    70 ≤ newTInOf ⟨0, 0, 0, 0, 0⟩ :=
  (outlet_cooler_bounds ⟨0, 0, 0, 0, 0⟩ (le_refl 0) (by norm_num) (le_refl 0)
    (by norm_num)).1

/-- C9: two states that agree except on the pump, fan and connectivity
flags produce, from the same draws, identical series buffers, instant
readings, alarm logs and KPIs on the next tick. -/
theorem equipment_flags_noninterference (s1 : State) (p f e m : Bool)
    (time : String) (d : Draws) (rEff rCop : ℚ) (s2 : State)
    (h : s2 = { s1 with pumpOn := p, fanOn := f, ethConnected := e, modbusConnected := m }) :
    (tick s1 time d).tempSeries = (tick s2 time d).tempSeries ∧
    (tick s1 time d).flowSeries = (tick s2 time d).flowSeries ∧
    (tick s1 time d).pressSeries = (tick s2 time d).pressSeries ∧
    (tick s1 time d).levelSeries = (tick s2 time d).levelSeries ∧
    (tick s1 time d).tIn = (tick s2 time d).tIn ∧
    (tick s1 time d).tOut = (tick s2 time d).tOut ∧
    (tick s1 time d).flow = (tick s2 time d).flow ∧
    (tick s1 time d).press = (tick s2 time d).press ∧
    (tick s1 time d).level = (tick s2 time d).level ∧
    (tick s1 time d).alarms = (tick s2 time d).alarms ∧
    kpis (tick s1 time d).tIn (tick s1 time d).tOut rEff rCop =
      kpis (tick s2 time d).tIn (tick s2 time d).tOut rEff rCop := by
  subst h
  exact ⟨rfl, rfl, rfl, rfl, rfl, rfl, rfl, rfl, rfl, rfl, rfl⟩

/-- C9 witness: the sample state against the same state with every flag
toggled, at a concrete tick. -/
theorem equipment_flags_noninterference_witness :
    (tick sampleState "t" ⟨0, 0, 0, 0, 0⟩).tempSeries =
      (tick { sampleState with pumpOn := false, fanOn := false, ethConnected := false, modbusConnected := true } "t"
        ⟨0, 0, 0, 0, 0⟩).tempSeries :=
  (equipment_flags_noninterference sampleState false false false true "t"
    ⟨0, 0, 0, 0, 0⟩ 0 0 _ rfl).1

/-- C10: for a draw in [0,1) the efficiency KPI lies in [0.73, 0.85] and
equals the unclamped 0.85 - r * 0.12: neither clamp bound is active. -/
theorem efficiency_clamp_inactive (r : ℚ) (h0 : 0 ≤ r) (h1 : r < 1) :
    0.73 ≤ efficiencyOf r ∧ efficiencyOf r ≤ 0.85 ∧
    efficiencyOf r = 0.85 - r * 0.12 := by
  unfold efficiencyOf
  have hub : (0.85 : ℚ) - r * 0.12 ≤ 0.85 := by nlinarith
  have hlb : (0.73 : ℚ) ≤ 0.85 - r * 0.12 := by nlinarith
  have h98 : (0.85 : ℚ) - r * 0.12 ≤ 0.98 := by nlinarith
  have h05 : (0.5 : ℚ) ≤ 0.85 - r * 0.12 := by nlinarith
  rw [min_eq_right h98, max_eq_right h05]
  exact ⟨hlb, hub, rfl⟩

/-- C10 witness: the draw one half gives efficiency 0.79. -/
theorem efficiency_clamp_inactive_witness :
    0.73 ≤ efficiencyOf (1/2) :=
  (efficiency_clamp_inactive (1/2) (by norm_num) (by norm_num)).1

/-! ### Setpoint input validation and the seed generator -/

/-- C4 counterexample: a NaN value supplied to the Temp. Máx handler
overwrites the stored setpoint instead of leaving it unchanged at its
previous numeric value 78. -/
theorem setpoint_nan_overwrites :
    ((setTempHighInput defaultSetpoints JSNum.nan).tempHigh
      = defaultSetpoints.tempHigh) = False :=
  eq_false (by decide)

/-- C4 amended: the setpoint-change handler stores the converted value
unconditionally, so a non-finite value replaces the previous setpoint;
alarm evaluation then runs against the NaN setpoint, and the affected rule
simply never fires, comparisons against NaN being false. -/
theorem setpoint_input_unchecked (sp : Setpoints) (v : JSNum)
    (tAvg fl pr lv : ℚ) (time : String) :
    (setTempHighInput sp v).tempHigh = v ∧
    (evalAlarms (setTempHighInput sp JSNum.nan) tAvg fl pr lv time).filter
      (fun a => a.type == "Alta Temperatura") = [] := by
  refine ⟨rfl, ?_⟩
  have hnan : (setTempHighInput sp JSNum.nan).tempHigh = JSNum.nan := rfl
  unfold evalAlarms
  rw [hnan]
  simp only [JSNum.gtN, JSNum.ltN, Bool.false_eq_true, if_false, List.nil_append]
  split_ifs <;> simp [List.filter]

/-- C5 counterexample: the seed used at startup (and by resetHistory) is
genSeed with n = 24, so the temperature buffer starts with 24 points, not
the buffer capacity 40. -/
theorem seed_count_not_capacity :
    ((initState (fun _ => 0) (fun _ => 0) (fun _ => 0) (fun _ => 0)).tempSeries.length
      = 40) = False :=
  eq_false (by simp [initState, genSeed])

/-- C5 amended: the seed generator as invoked at startup and by
resetHistory produces exactly 24 points, and each point's value is
average + u for a uniform u in [-variance/2, variance/2), rounded to
2 decimal places. -/
theorem genSeed_count_and_values (avg vari : ℚ) (draws : ℕ → ℚ) (hv : 0 < vari)
    (hd : ∀ i : ℕ, 0 ≤ draws i ∧ draws i < 1) :
    (genSeed 24 avg vari draws).length = 24 ∧
    (initState draws draws draws draws).tempSeries = genSeed 24 30 6 draws ∧
    (resetHistory sampleState draws draws draws draws).tempSeries
      = genSeed 24 30 6 draws ∧
    ∀ i : Fin 24, ∃ u : ℚ, -(vari / 2) ≤ u ∧ u < vari / 2 ∧
      (genSeed 24 avg vari draws)[(i : ℕ)]? = some ⟨toString (i : ℕ), round2 (avg + u)⟩ := by
  refine ⟨by simp [genSeed], rfl, rfl, ?_⟩
  intro i
  refine ⟨(draws (i : ℕ) - 0.5) * vari, ?_, ?_, ?_⟩
  · nlinarith [(hd (i : ℕ)).1, (hd (i : ℕ)).2]
  · nlinarith [(hd (i : ℕ)).1, (hd (i : ℕ)).2]
  · simp [genSeed, List.getElem?_map, List.getElem?_range, i.isLt]

/-- C5 witness: the all-zero draw stream. -/
theorem genSeed_count_and_values_witness :
    (genSeed 24 30 6 (fun _ => 0)).length = 24 :=
  (genSeed_count_and_values 30 6 (fun _ => 0) (by norm_num)
    (fun _ => ⟨le_refl 0, by norm_num⟩)).1
